import Mathlib

/-
Shallow embedding of the Idempotent Inventory Checkout Engine of
`functions/index.js` (holmberd/firebase-stripe-checkout).

Modelling conventions:
- Firestore state is a pair of key-value maps: the `steam` collection
  (skuId to the `keys` field of the document, `none` when the document is
  missing or has no `keys` field) and the `orders` collection (orderId to
  the order document).
- A Firestore `WriteBatch` is a list of staged write operations plus a
  committed flag; `batch.commit()` applies the staged writes in order and
  marks the batch committed; staging a write on an already-committed
  batch throws (`Cannot modify a WriteBatch that has been committed`)
  and never reaches the store.  Reads (`getSteamKeys`, `getOrderDoc`)
  read the committed store and never see staged-but-uncommitted writes.
- Promise semantics are modelled faithfully to the event loop.  The
  decisive point is in `checkoutSteamGameKeys`: it maps each sku to the
  PLAIN OBJECT `{keys: checkoutSteamGameKey(...), description}`, whose
  `keys` field is a pending promise.  `Promise.all` awaits only
  thenables, so over these non-thenable objects it resolves at once, and
  `processOrder`'s chain stages the ledger set and calls
  `batch.commit()` within the same microtask drain — strictly before
  any per-sku Firestore read completes, because I/O completions are
  macrotasks that cannot preempt the drain.  Hence:
  (a) the batch at commit time holds only the `orders/<orderId>` set;
  (b) the resolved result items carry still-pending promises in their
      `keys` fields, never key strings;
  (c) each per-sku chain runs detached after the commit and ends in an
      unhandled rejection — either the missing-document error or the
      committed-batch error thrown by its `batch.update` — touching
      nothing (`processOrderRun` exhibits these detached outcomes).
- Within one linear promise chain, `.then` composition is modelled as
  sequential monadic composition: a rejected promise becomes
  `Except.error`, a resolved one `Except.ok`.
- JavaScript `Array.prototype.pop()` on an empty array returns
  `undefined` and leaves the array empty; the values popped by the
  detached chains are therefore `Option String`, with `none` standing
  for `undefined`.
- The thrown error strings of the source are modelled as the
  constructors of `ProcErr`; the `'Failed to ...: '` message wrapping
  performed by the `.catch` handlers does not change which error flows
  where and is not modelled.
-/

namespace StripeCheckout

/-- A Stripe order line item as it reaches `processOrder`: the webhook
handler passes the filtered `data.object.items`, whose fields used by
the code are `type`, `parent` (the SKU id), `quantity` and
`description`. -/
structure Sku where
  type : String
  parent : String
  quantity : Nat
  description : String
  deriving DecidableEq

/-- The `orders` collection document: `processOrder` writes
`{isProcessed: true}`. -/
structure OrderDoc where
  isProcessed : Bool
  deriving DecidableEq

/-- The Firestore state: the `steam` collection (skuId to the `keys`
field) and the `orders` collection (orderId to the order document). -/
structure FS where
  steam : String → Option (List String)
  orders : String → Option OrderDoc

/-- A staged write of a Firestore `WriteBatch`: `batch.update` of the
`keys` field of a `steam` document, or `batch.set` of an `orders`
document. -/
inductive BatchOp where
  | updateSteam (skuId : String) (keys : List String)
  | setOrder (orderId : String) (doc : OrderDoc)
  deriving DecidableEq

/-- A Firestore `WriteBatch`: the staged operations and whether
`commit()` has been called on it. -/
structure WriteBatch where
  ops : List BatchOp
  committed : Bool
  deriving DecidableEq

/-- The error Firestore throws when a write is staged on a batch whose
`commit()` has already been called. -/
inductive BatchErr where
  | alreadyCommitted
  deriving DecidableEq

/-- A promise object as it appears inside `processOrder`'s resolved
value: `checkoutSteamGameKeys` wraps the pending promise returned by
`checkoutSteamGameKey(batch, sku.parent, sku.quantity)` in a plain
object, and `Promise.all` never awaits it, so the caller receives the
promise object itself (identified here by the call that created it),
not a key list. -/
inductive KeysPromise where
  | pending (skuId : String) (quantity : Nat)
  deriving DecidableEq

/-- One element of the value `processOrder` resolves with: the plain
object `{keys, description}` built in `checkoutSteamGameKeys`, whose
`keys` field is a still-pending promise. -/
structure KeyItem where
  keys : KeysPromise
  description : String
  deriving DecidableEq

/-- The errors arising in the checkout core: `'Order already
processed'` thrown in `processOrder`, `'sku has no associated
steamkey'` thrown in `checkoutSteamGameKey`, and the Firestore
committed-batch error surfacing through `checkoutSteamGameKey`'s
`.catch` when its `batch.update` runs after `batch.commit()`. -/
inductive ProcErr where
  | orderAlreadyProcessed
  | skuHasNoSteamkey
  | batchAlreadyCommitted
  deriving DecidableEq

/-- `getSteamKeys(skuId)`: reads `steam/<skuId>`; `doc.data().keys` when
the document exists, `null` (here `none`) otherwise. -/
def getSteamKeys (st : FS) (skuId : String) : Option (List String) :=
  st.steam skuId

/-- The allocation loop of `checkoutSteamGameKey`: `quantity` times,
`keys.push(steamKeys.pop())`.  `pop()` removes and returns the last
element; on an empty array it returns `undefined` (`none`) and leaves
the array empty.  Returns the pushed values and the remaining array.
It mutates only the local copy read from the document. -/
def popLoop : Nat → List String → List (Option String) × List String
  | 0, arr => ([], arr)
  | n + 1, arr =>
    let r := popLoop n arr.dropLast
    (arr.getLast? :: r.1, r.2)

/-- `updateSteamKeys(batch, skuId, keys)`: stages
`batch.update(steam/<skuId>, {keys})` — unless `commit()` has already
been called on the batch, in which case Firestore throws and nothing is
staged. -/
def updateSteamKeys (b : WriteBatch) (skuId : String) (keys : List String) :
    Except BatchErr WriteBatch :=
  if b.committed then Except.error BatchErr.alreadyCommitted
  else Except.ok ⟨b.ops ++ [BatchOp.updateSteam skuId keys], false⟩

/-- `createOrderDoc(batch, orderId, data)`: stages
`batch.set(orders/<orderId>, data)`, with the same committed-batch
check. -/
def createOrderDoc (b : WriteBatch) (orderId : String) (doc : OrderDoc) :
    Except BatchErr WriteBatch :=
  if b.committed then Except.error BatchErr.alreadyCommitted
  else Except.ok ⟨b.ops ++ [BatchOp.setOrder orderId doc], false⟩

/-- `getOrderDoc(orderId)`: reads `orders/<orderId>`; the document data
when it exists, `null` (`none`) otherwise. -/
def getOrderDoc (st : FS) (orderId : String) : Option OrderDoc :=
  st.orders orderId

/-- `isOrderProcessed(orderId)`: `doc.isProcessed` when the document
exists, `false` when it is absent. -/
def isOrderProcessed (st : FS) (orderId : String) : Bool :=
  match getOrderDoc st orderId with
  | some doc => doc.isProcessed
  | none => false

/-- Applies one staged write to the store: `update` replaces the `keys`
field of the `steam` document, `set` creates or overwrites the `orders`
document. -/
def applyOp (st : FS) : BatchOp → FS
  | BatchOp.updateSteam skuId keys =>
    { st with steam := fun s => if s = skuId then some keys else st.steam s }
  | BatchOp.setOrder orderId doc =>
    { st with orders := fun o => if o = orderId then some doc else st.orders o }

/-- `batch.commit()`: applies the staged writes in order, atomically,
and marks the batch committed; any write staged on it afterwards
throws. -/
def commitBatch (st : FS) (b : WriteBatch) : FS × WriteBatch :=
  (b.ops.foldl applyOp st, ⟨b.ops, true⟩)

/-- The body of one detached per-sku chain,
`checkoutSteamGameKey(batch, skuId, quantity)`: the Firestore read
resolves, then `if (!steamKeys) throw` — only a missing document
(`null`) is falsy in JavaScript, an empty array is truthy and proceeds
— then the loop pops `quantity` keys from the tail of the local copy
and `updateSteamKeys` tries to stage the shortened array.  By the time
the read has resolved, the caller has already committed the batch (see
`processOrderRun`), so the staging throws and the chain rejects; the
rejection is unhandled, since nothing awaits these promises. -/
def checkoutSteamGameKey (st : FS) (b : WriteBatch) (skuId : String)
    (quantity : Nat) : Except ProcErr (List (Option String) × WriteBatch) :=
  match getSteamKeys st skuId with
  | none => Except.error ProcErr.skuHasNoSteamkey
  | some steamKeys =>
    let r := popLoop quantity steamKeys
    match updateSteamKeys b skuId r.2 with
    | Except.error _ => Except.error ProcErr.batchAlreadyCommitted
    | Except.ok b₂ => Except.ok (r.1, b₂)

/-- `checkoutSteamGameKeys(batch, skus)` as its caller observes it: it
synchronously builds, per sku, the plain object
`{keys: checkoutSteamGameKey(batch, sku.parent, sku.quantity),
description: sku.description}` and returns
`Promise.all(skuPromises)`.  The array elements are not thenables, so
`Promise.all` resolves immediately with the objects as they are — each
`keys` field a pending promise — before any steam read completes.  The
spawned per-sku chains run detached afterwards (`processOrderRun`). -/
def checkoutSteamGameKeys (skus : List Sku) : List KeyItem :=
  skus.map (fun sku =>
    ⟨KeysPromise.pending sku.parent sku.quantity, sku.description⟩)

/-- `processOrder(orderId, skus)` as its caller observes it:
idempotency check (a processed order throws before anything else); then
`checkoutSteamGameKeys` resolves immediately (see above); then
`createOrderDoc` stages the ledger set on the still-fresh batch — no
steam update has been staged, the per-sku reads are still in flight —
and `batch.commit()` commits.  The committed batch therefore holds
exactly the one ledger write, and the resolved items wrap pending
promises. -/
def processOrder (st : FS) (orderId : String) (skus : List Sku) :
    Except ProcErr (List KeyItem) × FS :=
  if isOrderProcessed st orderId then
    (Except.error ProcErr.orderAlreadyProcessed, st)
  else
    match createOrderDoc ⟨[], false⟩ orderId ⟨true⟩ with
    | Except.error _ => (Except.error ProcErr.batchAlreadyCommitted, st)
    | Except.ok b => (Except.ok (checkoutSteamGameKeys skus), (commitBatch st b).1)

/-- One complete run of a checkout: the main chain of `processOrder`,
followed — strictly afterwards, since Firestore read completions are
macrotasks that cannot preempt the main chain's microtask drain — by
the detached per-sku chains.  Each detached chain reads the
post-commit store (whose `steam` documents the commit did not touch)
and attempts to stage its update on the batch object it shares with
`processOrder`, which by then is the committed batch holding the single
ledger set.  On the fail-fast path `checkoutSteamGameKeys` is never
invoked, so no chains exist.  The second component lists the detached
chains' outcomes: unhandled rejections that deliver nothing and
modify nothing. -/
def processOrderRun (st : FS) (orderId : String) (skus : List Sku) :
    (Except ProcErr (List KeyItem) × FS) ×
      List (Except ProcErr (List (Option String) × WriteBatch)) :=
  let main := processOrder st orderId skus
  match main.1 with
  | Except.error _ => (main, [])
  | Except.ok _ =>
    (main,
     skus.map (fun sku =>
       checkoutSteamGameKey main.2
         (commitBatch st ⟨[BatchOp.setOrder orderId ⟨true⟩], false⟩).2
         sku.parent sku.quantity))

/-- The body of a Stripe webhook delivery as the handler inspects it:
whether `req.body` has an `id` property, its `type`, and the
`data.object` fields the success branch reads. -/
structure WebhookBody where
  hasId : Bool
  type : String
  orderId : String
  email : String
  items : List Sku

/-- The `POST /webhook` handler: on a body with an `id` and type
`order.payment_succeeded`, filters the items to those of type `sku` and
runs `processOrder`; every other event is acknowledged without any
processing.  Returns the resulting store and, when `processOrder` ran,
its outcome. -/
def handleWebhook (st : FS) (body : WebhookBody) :
    FS × Option (Except ProcErr (List KeyItem)) :=
  if body.hasId && body.type == "order.payment_succeeded" then
    let skus := body.items.filter (fun item => item.type == "sku")
    let r := processOrder st body.orderId skus
    (r.2, some r.1)
  else
    (st, none)

/-- The stored key list of a sku, defaulting to `[]` for a missing
document (only used to state theorems). -/
def keysOf (st : FS) (skuId : String) : List String :=
  (st.steam skuId).getD []

/-- The key strings one resolved checkout item actually delivers to the
caller: its `keys` field is a pending promise, which holds no key value
(JSON-serializing it for the EmailService request body yields an empty
object). -/
def deliveredKeys : KeysPromise → List String
  | KeysPromise.pending _ _ => []

/-! Concrete stores and line items used by witnesses and
counterexamples. -/

/-- Scenario A store: `steam/sku-1` holds `["K1","K2","K3"]`, the ledger
is empty. -/
def stScenA : FS :=
  ⟨fun s => if s = "sku-1" then some ["K1", "K2", "K3"] else none,
   fun _ => none⟩

/-- Scenario A line items: one line item, sku-1, quantity 2. -/
def skusScenA : List Sku :=
  [⟨"sku", "sku-1", 2, "Game"⟩]

/-- A store with a single key for sku-1 and an empty ledger. -/
def stShort : FS :=
  ⟨fun s => if s = "sku-1" then some ["K1"] else none,
   fun _ => none⟩

/-- Scenario D store: sku-1 has two keys, sku-2 has one, ledger empty. -/
def stTwo : FS :=
  ⟨fun s =>
     if s = "sku-1" then some ["K1", "K2"]
     else if s = "sku-2" then some ["K3"] else none,
   fun _ => none⟩

/-- Scenario D line items: sku-1 has enough stock, sku-2 does not. -/
def skusTwo : List Sku :=
  [⟨"sku", "sku-1", 1, "A"⟩, ⟨"sku", "sku-2", 2, "B"⟩]

/-- Two keys in stock for sku-1, ledger empty. -/
def stDup : FS :=
  ⟨fun s => if s = "sku-1" then some ["K1", "K2"] else none,
   fun _ => none⟩

/-- One order mentioning the same sku in two line items. -/
def skusDup : List Sku :=
  [⟨"sku", "sku-1", 1, "A"⟩, ⟨"sku", "sku-1", 1, "B"⟩]

/-- A webhook body without an `id` property. -/
def bodyNoId : WebhookBody :=
  ⟨false, "order.payment_succeeded", "o1", "a@b.c", []⟩

/-! Helper lemmas. -/

/-- Filtering on `type == "sku"` is idempotent. -/
lemma filter_sku_idem (l : List Sku) :
    (l.filter (fun item => item.type == "sku")).filter
        (fun item => item.type == "sku") =
      l.filter (fun item => item.type == "sku") := by
  induction l with
  | nil => rfl
  | cons a t ih =>
    by_cases h : a.type == "sku"
    · simp [List.filter_cons, h, ih]
    · simp at h
      simp [List.filter_cons, h, ih]

/-- Every promise object delivers no key strings. -/
lemma deliveredKeys_eq_nil (kp : KeysPromise) : deliveredKeys kp = [] := by
  cases kp
  rfl

/-- On the success path `processOrder` resolves with the pending-keys
items and a store whose only change is the committed ledger write. -/
lemma processOrder_ok (st : FS) (orderId : String) (skus : List Sku)
    (h : isOrderProcessed st orderId = false) :
    processOrder st orderId skus =
      (Except.ok (checkoutSteamGameKeys skus),
       (commitBatch st ⟨[BatchOp.setOrder orderId ⟨true⟩], false⟩).1) := by
  rw [processOrder, if_neg (by simp [h])]
  rfl

/-- Claim C1 counterexample evaluation (Scenario A, then the identical
call): the first checkout succeeds but resolves with a pending-promise
item and decrements inventory zero times — the committed batch held
only the ledger write, and the detached chain's staged update threw on
the committed batch; the second call does fail fast with the
already-processed error and changes nothing; so the two calls together
yield zero inventory decrements, not exactly one. -/
theorem c1_zero_decrements :
    (processOrder stScenA "o1" skusScenA).1 =
      Except.ok [⟨KeysPromise.pending "sku-1" 2, "Game"⟩] ∧
    ((processOrder stScenA "o1" skusScenA).2).steam "sku-1" =
      some ["K1", "K2", "K3"] ∧
    (processOrderRun stScenA "o1" skusScenA).2 =
      [Except.error ProcErr.batchAlreadyCommitted] ∧
    processOrder (processOrder stScenA "o1" skusScenA).2 "o1" skusScenA =
      (Except.error ProcErr.orderAlreadyProcessed,
       (processOrder stScenA "o1" skusScenA).2) ∧
    ((processOrder (processOrder stScenA "o1" skusScenA).2 "o1" skusScenA).2).steam
        "sku-1" = some ["K1", "K2", "K3"] := by
  exact ⟨rfl, rfl, rfl, rfl, rfl⟩

/-- Claim C2 counterexample evaluation: neither a short stored sequence
(one key, quantity 2) nor a missing steam document aborts the checkout:
in both cases `processOrder` resolves successfully with a
pending-promise item, commits the ledger entry, and leaves the
inventory untouched, while the per-sku rejection — the committed-batch
error, or the missing-document error — goes unhandled in its detached
chain. -/
theorem c2_insufficient_not_aborted :
    (processOrder stShort "o1" [⟨"sku", "sku-1", 2, "Game"⟩]).1 =
      Except.ok [⟨KeysPromise.pending "sku-1" 2, "Game"⟩] ∧
    ((processOrder stShort "o1" [⟨"sku", "sku-1", 2, "Game"⟩]).2).steam "sku-1" =
      some ["K1"] ∧
    ((processOrder stShort "o1" [⟨"sku", "sku-1", 2, "Game"⟩]).2).orders "o1" =
      some ⟨true⟩ ∧
    (processOrderRun stShort "o1" [⟨"sku", "sku-1", 2, "Game"⟩]).2 =
      [Except.error ProcErr.batchAlreadyCommitted] ∧
    (processOrder stShort "o2" [⟨"sku", "sku-404", 1, "G"⟩]).1 =
      Except.ok [⟨KeysPromise.pending "sku-404" 1, "G"⟩] ∧
    (processOrderRun stShort "o2" [⟨"sku", "sku-404", 1, "G"⟩]).2 =
      [Except.error ProcErr.skuHasNoSteamkey] ∧
    ((processOrder stShort "o2" [⟨"sku", "sku-404", 1, "G"⟩]).2).orders "o2" =
      some ⟨true⟩ := by
  exact ⟨rfl, rfl, rfl, rfl, rfl, rfl, rfl⟩

/-- Claim C3 counterexample evaluation (Scenario A): the checkout never
performs the claimed allocation: the resolved item's `keys` field is a
pending promise object, not the list `["K3","K2"]`; no steam write is
staged before the commit, so the inventory stays `["K1","K2","K3"]`
instead of `["K1"]`; only the ledger entry commits; and the detached
chain that would have staged the shortened sequence rejects with the
committed-batch error. -/
theorem c3_no_allocation_performed :
    (processOrder stScenA "o1" skusScenA).1 =
      Except.ok [⟨KeysPromise.pending "sku-1" 2, "Game"⟩] ∧
    keysOf ((processOrder stScenA "o1" skusScenA).2) "sku-1" =
      ["K1", "K2", "K3"] ∧
    ((processOrder stScenA "o1" skusScenA).2).orders "o1" = some ⟨true⟩ ∧
    (processOrderRun stScenA "o1" skusScenA).2 =
      [Except.error ProcErr.batchAlreadyCommitted] ∧
    ¬ keysOf ((processOrder stScenA "o1" skusScenA).2) "sku-1" = ["K1"] := by
  exact ⟨rfl, rfl, rfl, rfl, by decide⟩

/-- Claim C4 counterexample evaluation (Scenario D): with the second
line item short on stock, the checkout still succeeds and the ledger
entry for the order is created and committed; no failure of any line
item can prevent the commit, because the per-sku rejections happen in
detached chains after `batch.commit()` has already run.  (The
inventory is indeed unchanged — but because no steam write is ever
staged before the commit, on this input and on every other.) -/
theorem c4_ledger_committed_despite_shortage :
    (processOrder stTwo "o4" skusTwo).1 =
      Except.ok [⟨KeysPromise.pending "sku-1" 1, "A"⟩,
                 ⟨KeysPromise.pending "sku-2" 2, "B"⟩] ∧
    ((processOrder stTwo "o4" skusTwo).2).steam "sku-1" = some ["K1", "K2"] ∧
    ((processOrder stTwo "o4" skusTwo).2).steam "sku-2" = some ["K3"] ∧
    stTwo.orders "o4" = none ∧
    ((processOrder stTwo "o4" skusTwo).2).orders "o4" = some ⟨true⟩ ∧
    (processOrderRun stTwo "o4" skusTwo).2 =
      [Except.error ProcErr.batchAlreadyCommitted,
       Except.error ProcErr.batchAlreadyCommitted] := by
  exact ⟨rfl, rfl, rfl, rfl, rfl, rfl⟩

/-- Claim C5 counterexample evaluation: a checkout that succeeds with
one stored key and quantity 2 decrements the stored length by 0, not by
the requested 2: no steam write is staged before the batch commits, so
conservation fails for every successful checkout with a positive
requested quantity. -/
theorem c5_no_conservation :
    (processOrder stShort "o5" [⟨"sku", "sku-1", 2, "G"⟩]).1 =
      Except.ok [⟨KeysPromise.pending "sku-1" 2, "G"⟩] ∧
    keysOf stShort "sku-1" = ["K1"] ∧
    keysOf ((processOrder stShort "o5" [⟨"sku", "sku-1", 2, "G"⟩]).2) "sku-1" =
      ["K1"] ∧
    ¬ ((keysOf stShort "sku-1").length -
        (keysOf ((processOrder stShort "o5" [⟨"sku", "sku-1", 2, "G"⟩]).2)
            "sku-1").length = 2) := by
  exact ⟨rfl, rfl, rfl, by decide⟩

/-- Claim C6: no key value appears in two different successful
allocation results — vacuously so in this program: the `keys` field of
every item of every successful result is a promise nothing awaits, so
no allocation result delivers any key string at all, and in particular
the delivered key lists of any two items (including two line items
sharing a productId within one order) are disjoint. -/
theorem c6_no_double_issue (st : FS) (orderId : String) (skus : List Sku)
    (items : List KeyItem)
    (h : (processOrder st orderId skus).1 = Except.ok items) :
    (∀ item ∈ items, deliveredKeys item.keys = []) ∧
    (∀ item₁ ∈ items, ∀ item₂ ∈ items, ∀ k : String,
      k ∈ deliveredKeys item₁.keys → k ∈ deliveredKeys item₂.keys → False) := by
  constructor
  · intro item _
    exact deliveredKeys_eq_nil item.keys
  · intro item₁ _ item₂ _ k hk₁ _
    rw [deliveredKeys_eq_nil item₁.keys] at hk₁
    simp at hk₁

/-- Claim C6 witness: one order naming sku-1 in two line items resolves
successfully, and neither item delivers any key value. -/
theorem c6_witness :
    (processOrder stDup "o6" skusDup).1 =
      Except.ok [⟨KeysPromise.pending "sku-1" 1, "A"⟩,
                 ⟨KeysPromise.pending "sku-1" 1, "B"⟩] ∧
    ((∀ item ∈ [(⟨KeysPromise.pending "sku-1" 1, "A"⟩ : KeyItem),
                ⟨KeysPromise.pending "sku-1" 1, "B"⟩],
        deliveredKeys item.keys = []) ∧
      (∀ item₁ ∈ [(⟨KeysPromise.pending "sku-1" 1, "A"⟩ : KeyItem),
                  ⟨KeysPromise.pending "sku-1" 1, "B"⟩],
        ∀ item₂ ∈ [(⟨KeysPromise.pending "sku-1" 1, "A"⟩ : KeyItem),
                   ⟨KeysPromise.pending "sku-1" 1, "B"⟩],
        ∀ k : String,
          k ∈ deliveredKeys item₁.keys → k ∈ deliveredKeys item₂.keys →
            False)) :=
  ⟨rfl,
   c6_no_double_issue stDup "o6" skusDup
     [⟨KeysPromise.pending "sku-1" 1, "A"⟩,
      ⟨KeysPromise.pending "sku-1" 1, "B"⟩] rfl⟩

/-- Claim C7: an orderId with no ledger entry is read back as not
processed (absence is `false`, not an error), and a checkout of it never
fails with the already-processed error. -/
theorem c7_missing_entry_is_unprocessed (st : FS) (orderId : String)
    (skus : List Sku) (h : st.orders orderId = none) :
    isOrderProcessed st orderId = false ∧
    (processOrder st orderId skus).1 ≠
      Except.error ProcErr.orderAlreadyProcessed := by
  have hfalse : isOrderProcessed st orderId = false := by
    rw [isOrderProcessed, getOrderDoc, h]
  refine ⟨hfalse, ?_⟩
  rw [processOrder_ok st orderId skus hfalse]
  simp

/-- Claim C7 witness: the Scenario A ledger has no entry for o9. -/
theorem c7_witness :
    stScenA.orders "o9" = none ∧
    (isOrderProcessed stScenA "o9" = false ∧
      (processOrder stScenA "o9" skusScenA).1 ≠
        Except.error ProcErr.orderAlreadyProcessed) :=
  ⟨rfl, c7_missing_entry_is_unprocessed stScenA "o9" skusScenA rfl⟩

/-- Claim C8: a checkout of an unprocessed orderId with zero line items
succeeds with an empty result, changes no product's key sequence, and
still commits the processed ledger entry. -/
theorem c8_empty_order_processed (st : FS) (orderId : String)
    (h : isOrderProcessed st orderId = false) :
    (processOrder st orderId []).1 = Except.ok [] ∧
    (∀ p, ((processOrder st orderId []).2).steam p = st.steam p) ∧
    ((processOrder st orderId []).2).orders orderId = some ⟨true⟩ := by
  rw [processOrder_ok st orderId [] h]
  refine ⟨rfl, ?_, ?_⟩
  · intro p
    simp [checkoutSteamGameKeys, commitBatch, applyOp]
  · simp [commitBatch, applyOp]

/-- Claim C8 witness: an empty order against the Scenario A store. -/
theorem c8_witness :
    isOrderProcessed stScenA "o8" = false ∧
    ((processOrder stScenA "o8" []).1 = Except.ok [] ∧
      (∀ p, ((processOrder stScenA "o8" []).2).steam p = stScenA.steam p) ∧
      ((processOrder stScenA "o8" []).2).orders "o8" = some ⟨true⟩) :=
  ⟨rfl, c8_empty_order_processed stScenA "o8" rfl⟩

/-- Claim C9: the webhook handler acknowledges events lacking an `id`
or of a different type without touching the store or running the
checkout; on an `order.payment_succeeded` event it runs `processOrder`
on exactly the items of type `sku`; the filtered list holds only
sku-typed items, and dropping the non-sku items of any event body up
front changes nothing about the handling. -/
theorem c9_webhook_sku_filter (st : FS) (body : WebhookBody) :
    ((body.hasId && body.type == "order.payment_succeeded") = false →
      handleWebhook st body = (st, none)) ∧
    ((body.hasId && body.type == "order.payment_succeeded") = true →
      handleWebhook st body =
        ((processOrder st body.orderId
            (body.items.filter (fun item => item.type == "sku"))).2,
         some (processOrder st body.orderId
            (body.items.filter (fun item => item.type == "sku"))).1)) ∧
    (∀ item ∈ body.items.filter (fun item => item.type == "sku"),
      item.type = "sku") ∧
    handleWebhook st
        { body with items := body.items.filter (fun item => item.type == "sku") } =
      handleWebhook st body := by
  refine ⟨?_, ?_, ?_, ?_⟩
  · intro h
    rw [handleWebhook, if_neg (by simp [h])]
  · intro h
    rw [handleWebhook, if_pos h]
  · intro item hmem
    have := (List.mem_filter.mp hmem).2
    exact eq_of_beq this
  · by_cases h : (body.hasId && body.type == "order.payment_succeeded") = true
    · rw [handleWebhook, if_pos h, handleWebhook, if_pos h]
      simp [filter_sku_idem]
    · rw [handleWebhook, if_neg h, handleWebhook, if_neg h]

/-- Claim C9 witness: a body without an `id` property is acknowledged
with the store untouched and no checkout run. -/
theorem c9_witness :
    ((bodyNoId.hasId && bodyNoId.type == "order.payment_succeeded") = false) ∧
    handleWebhook stScenA bodyNoId = (stScenA, none) :=
  ⟨rfl, (c9_webhook_sku_filter stScenA bodyNoId).1 rfl⟩

/-- Claim C10 (frame): whatever the outcome, a checkout leaves every
steam document other than those of the order's line items, and every
ledger entry other than the order's own, exactly as it was. -/
theorem c10_frame (st : FS) (orderId : String) (skus : List Sku) :
    (∀ p, p ∉ skus.map Sku.parent →
      ((processOrder st orderId skus).2).steam p = st.steam p) ∧
    (∀ o, o ≠ orderId →
      ((processOrder st orderId skus).2).orders o = st.orders o) := by
  by_cases hp : isOrderProcessed st orderId
  · simp [processOrder, hp]
  · rw [processOrder_ok st orderId skus (by simpa using hp)]
    constructor
    · intro p _
      simp [commitBatch, applyOp]
    · intro o ho
      simp [commitBatch, applyOp, ho]

/-- Claim C10 witness: Scenario A touches neither another sku's
document nor another order's ledger entry. -/
theorem c10_witness :
    ("sku-9" ∉ skusScenA.map Sku.parent) ∧
    ((processOrder stScenA "o1" skusScenA).2).steam "sku-9" =
      stScenA.steam "sku-9" ∧
    ((processOrder stScenA "o1" skusScenA).2).orders "o9" =
      stScenA.orders "o9" :=
  ⟨by decide,
   (c10_frame stScenA "o1" skusScenA).1 "sku-9" (by decide),
   (c10_frame stScenA "o1" skusScenA).2 "o9" (by decide)⟩

end StripeCheckout
